import Mathlib

/-!
Shallow embedding of `lti_auth/views.py` from rimikt/django-lti-provider.

The file under verification is the launch-handling view layer:
`LTIAuthMixin.join_groups`, `LTIAuthMixin.dispatch`,
`LTIRoutingView.custom_landing_page`, `LTIRoutingView.add_extra_parameters`
and `LTIRoutingView.post`.

External collaborators that live outside the view module (the `LTI` helper
object `lti_auth/lti.py`, the authentication backend reached through Django's
`authenticate`, the `LTICourseContext` model lookup, and Django's URL
`reverse`) are represented as oracle inputs: `dispatch` receives the result of
`authenticate` and of `lti.custom_course_context()` as data, and `post`
receives the resolved landing-page URL as a parameter.
-/

/-- Contiguous-sublist test on character lists: `pat` occurs somewhere in `s`. -/
def charsContain (s pat : List Char) : Bool :=
  match s with
  | [] => pat.isEmpty
  | c :: rest => pat.isPrefixOf (c :: rest) || charsContain rest pat

/-- Python's substring test `pat in s`, over the characters of the strings. -/
def strContains (s pat : String) : Bool :=
  charsContain s.toList pat.toList

/-- Python's `str.lower()` (the launch parameters at issue are ASCII, where
Python lowercasing is exactly per-character ASCII lowercasing). -/
def pyLower (s : String) : String :=
  ⟨s.data.map Char.toLower⟩

/-- Python `str(...)` of an optional value as produced by `dict.get(key)`
with no default: `None` prints as `"None"` under `%s` formatting. -/
def pyStr (o : Option String) : String :=
  o.getD "None"

/-- The slice of `django.conf.settings` read by `views.py`.
`lti_authenticate = none` models `hasattr(settings, 'LTI_AUTHENTICATE')`
being false, `some b` models the attribute being present with truthiness `b`.
Likewise `lti_extra_parameters = none` models the `LTI_EXTRA_PARAMETERS`
attribute being absent.  `embed_url` is
`settings.LTI_TOOL_CONFIGURATION['embed_url']`. -/
structure LtiSettings where
  lti_authenticate : Option Bool
  lti_extra_parameters : Option (List String)
  embed_url : String

/-- An `LTICourseContext` row as used by the views: the two group references.
Groups are identified by their primary key. -/
structure LTICourseContext where
  group : Nat
  faculty_group : Nat
deriving DecidableEq

/-- The possible HTTP responses produced by the embedded views:
a rendered template (`render_to_response`), a redirect
(`HttpResponseRedirect`; the target is `Option String` because
`add_extra_parameters` can return Python `None`), or falling through to
`super().dispatch` (the wrapped view runs). -/
inductive Response where
  | rendered : String → Response
  | redirect : Option String → Response
  | passthrough : Response
deriving DecidableEq

/-- The slice of the Django request used by the routing view: the POST
parameter mapping and the transport scheme/host. -/
structure HttpRequest where
  postParams : String → Option String
  scheme : String
  host : String

/-- `request.POST.get(key, d)`. -/
def pyGetD (req : HttpRequest) (key d : String) : String :=
  (req.postParams key).getD d

namespace LTIAuthMixin

/-- The elevated-role test from the loop body of `join_groups`:
`role = role.lower()` then
`'staff' in role or 'instructor' in role or 'administrator' in role`. -/
def elevatedRoleCheck (role : String) : Bool :=
  let r := pyLower role
  strContains r "staff" || strContains r "instructor" || strContains r "administrator"

/-- The `for role in lti.user_roles():` loop of `join_groups`: on the first
role passing `elevatedRoleCheck` the user is added to `ctx.faculty_group` and
the loop `break`s.  A user's group set is modelled as a duplicate-free list
of group ids; Django's many-to-many `add` is set insertion (`List.insert`:
a no-op when the group is already present). -/
def joinGroupsLoop (ctx : LTICourseContext) : List String → List Nat → List Nat
  | [], groups => groups
  | role :: rest, groups =>
    if elevatedRoleCheck role then groups.insert ctx.faculty_group
    else joinGroupsLoop ctx rest groups

/-- `LTIAuthMixin.join_groups(self, lti, ctx, user)`: adds `ctx.group` to the
user's groups, then runs the role loop.  `roles` is `lti.user_roles()` and
`groups` is the user's group set before the call. -/
def join_groups (roles : List String) (ctx : LTICourseContext) (groups : List Nat) : List Nat :=
  joinGroupsLoop ctx roles (groups.insert ctx.group)

/-- The oracle inputs to `LTIAuthMixin.dispatch` coming from code outside
`views.py`: the result of `authenticate(request=request, lti=lti)`
(`none` on verification failure, otherwise the authenticated user,
represented by their current group set), the result of
`lti.custom_course_context()` (`none` when it raises
`KeyError`/`ValueError`/`LTICourseContext.DoesNotExist`), and
`lti.user_roles()`. -/
structure DispatchEnv where
  authUser : Option (List Nat)
  courseCtx : Option LTICourseContext
  userRoles : List String

/-- What a run of `LTIAuthMixin.dispatch` did: the response returned,
the authenticated user's group set afterwards (`none` when no user was
authenticated), whether `login(request, user)` ran, and whether
`lti.clear_session(request)` ran. -/
structure DispatchOutcome where
  response : Response
  finalGroups : Option (List Nat)
  loggedIn : Bool
  sessionCleared : Bool
deriving DecidableEq

/-- `LTIAuthMixin.dispatch`: when
`hasattr(settings, 'LTI_AUTHENTICATE') and settings.LTI_AUTHENTICATE`
holds it authenticates, resolves the course context, joins groups and logs
in, rendering `lti_auth/fail_auth.html` resp.
`lti_auth/fail_course_configuration.html` (after `lti.clear_session`) on the
two failure paths; otherwise it goes straight to `super().dispatch`. -/
def dispatch (s : LtiSettings) (env : DispatchEnv) : DispatchOutcome :=
  if s.lti_authenticate.getD false then
    match env.authUser with
    | none =>
      ⟨Response.rendered "lti_auth/fail_auth.html", none, false, true⟩
    | some groups =>
      match env.courseCtx with
      | none =>
        ⟨Response.rendered "lti_auth/fail_course_configuration.html",
          some groups, false, true⟩
      | some ctx =>
        ⟨Response.passthrough,
          some (join_groups env.userRoles ctx groups), true, false⟩
  else
    ⟨Response.passthrough, env.authUser, false, false⟩

end LTIAuthMixin

namespace LTIRoutingView

/-- `LTIRoutingView.custom_landing_page`: the lowercased
`tool_consumer_info_product_family_code` POST parameter contains `'canvas'`
or `'blackboard'` as a substring. -/
def custom_landing_page (req : HttpRequest) : Bool :=
  let provider := pyLower (pyGetD req "tool_consumer_info_product_family_code" "")
  strContains provider "canvas" || strContains provider "blackboard"

/-- The `for key in settings.LTI_EXTRA_PARAMETERS:` loop of
`add_extra_parameters`: `url += '{key}={value}&'` for each configured key,
with the value read from the POST data (default `''`). -/
def appendParams (req : HttpRequest) : List String → String → String
  | [], url => url
  | key :: rest, url =>
    appendParams req rest (url ++ key ++ "=" ++ pyGetD req key "" ++ "&")

/-- `LTIRoutingView.add_extra_parameters(self, url)`: returns Python `None`
when settings has no `LTI_EXTRA_PARAMETERS` attribute; otherwise appends
`'?'` or `'&'` depending on whether `'?' in url`, then the key/value pairs. -/
def add_extra_parameters (s : LtiSettings) (req : HttpRequest) (url : String) : Option String :=
  match s.lti_extra_parameters with
  | none => none
  | some keys =>
    let url' := if !strContains url "?" then url ++ "?" else url ++ "&"
    some (appendParams req keys url')

/-- `LTIRoutingView.post(self, request)`.  `landingPageUrl` stands for
`reverse('lti-landing-page')`.  Modelled from the spec: the URL configuration
resolving the name `lti-landing-page` is not part of the view module, so the
interstitial landing page URL is an abstract parameter here. -/
def post (s : LtiSettings) (landingPageUrl : String) (req : HttpRequest) : Response :=
  let url :=
    if pyGetD req "ext_content_intended_use" "" = "embed" then
      req.scheme ++ "://" ++ req.host ++ "/" ++ s.embed_url ++ "?return_url=" ++
        pyStr (req.postParams "launch_presentation_return_url")
    else if custom_landing_page req then
      landingPageUrl
    else
      "/"
  Response.redirect (add_extra_parameters s req url)

end LTIRoutingView

/-! Spec-side predicates and descriptions, written from the specification's
words, used to state the claims against the embedded code. -/

/-- The spec's elevated-role condition: some role string, case-folded,
contains one of the elevated-role substrings "staff", "instructor" or
"administrator". -/
def SpecElevated (roles : List String) : Prop :=
  ∃ r ∈ roles,
    (strContains (pyLower r) "staff" = true ∨
      strContains (pyLower r) "instructor" = true ∨
      strContains (pyLower r) "administrator" = true)

instance (roles : List String) : Decidable (SpecElevated roles) :=
  inferInstanceAs (Decidable (∃ r ∈ roles,
    (strContains (pyLower r) "staff" = true ∨
      strContains (pyLower r) "instructor" = true ∨
      strContains (pyLower r) "administrator" = true)))

/-- The spec's new-tab-incapable condition: the consumer product family
identifier, case-folded, contains an entry of the denylist
`["canvas", "blackboard"]` as a substring. -/
def SpecNewTabIncapable (req : HttpRequest) : Prop :=
  ∃ entry ∈ (["canvas", "blackboard"] : List String),
    strContains (pyLower (pyGetD req "tool_consumer_info_product_family_code" "")) entry = true

instance (req : HttpRequest) : Decidable (SpecNewTabIncapable req) :=
  inferInstanceAs (Decidable (∃ entry ∈ (["canvas", "blackboard"] : List String),
    strContains (pyLower (pyGetD req "tool_consumer_info_product_family_code" "")) entry = true))

/-- The query-string fragment actually produced for the configured extra
parameters: each key as `key=value&` with the value copied verbatim from the
POST data (default `''`), in configured order. -/
def extraQuery (req : HttpRequest) : List String → String
  | [] => ""
  | key :: rest => key ++ "=" ++ pyGetD req key "" ++ "&" ++ extraQuery req rest

/-- The separator rule for appending the extra-parameters fragment: `'&'`
when the URL already has a query string (contains `'?'`), else `'?'`. -/
def withQuerySep (url : String) : String :=
  if strContains url "?" then url ++ "&" else url ++ "?"

/-! Concrete fixtures used by counterexamples and witnesses. -/

/-- An embed launch request: `ext_content_intended_use=embed` and
`launch_presentation_return_url=https://x/y`. -/
def embedReq : HttpRequest :=
  ⟨fun k =>
    if k = "ext_content_intended_use" then some "embed"
    else if k = "launch_presentation_return_url" then some "https://x/y"
    else none,
    "https", "h"⟩

/-- A non-embed launch request from a Canvas consumer. -/
def canvasReq : HttpRequest :=
  ⟨fun k =>
    if k = "tool_consumer_info_product_family_code" then some "canvas" else none,
    "https", "h"⟩

/-- A request carrying POST parameter `a=1` and nothing else. -/
def reqA : HttpRequest :=
  ⟨fun k => if k = "a" then some "1" else none, "https", "h"⟩

/-- A request carrying POST parameter `a=b c` (a value needing URL
encoding) and nothing else. -/
def reqSpace : HttpRequest :=
  ⟨fun k => if k = "a" then some "b c" else none, "https", "h"⟩

/-- Settings with authentication on, `LTI_EXTRA_PARAMETERS` absent and
embed URL `em`. -/
def sNoExtra : LtiSettings := ⟨some true, none, "em"⟩

/-- Settings with authentication on, `LTI_EXTRA_PARAMETERS = ['a']` and
embed URL `em`. -/
def sExtraA : LtiSettings := ⟨some true, some ["a"], "em"⟩

/-! Helper lemmas. -/

theorem charsContain_iff_infix (s pat : List Char) :
    charsContain s pat = true ↔ pat <:+: s := by
  induction s with
  | nil => simp [charsContain, List.isEmpty_iff, List.infix_nil]
  | cons c rest ih =>
    simp [charsContain, Bool.or_eq_true, List.isPrefixOf_iff_prefix, ih,
      List.infix_cons_iff]

theorem strContains_iff (s pat : String) :
    strContains s pat = true ↔ pat.toList <:+: s.toList :=
  charsContain_iff_infix s.toList pat.toList

namespace LTIAuthMixin

theorem joinGroupsLoop_eq (ctx : LTICourseContext) (roles : List String) (g : List Nat) :
    joinGroupsLoop ctx roles g =
      if roles.any elevatedRoleCheck then g.insert ctx.faculty_group else g := by
  induction roles with
  | nil => rfl
  | cons r rest ih =>
    by_cases h : elevatedRoleCheck r
    · simp [joinGroupsLoop, h]
    · simp [joinGroupsLoop, h, ih]

theorem join_groups_eq (roles : List String) (ctx : LTICourseContext) (groups : List Nat) :
    join_groups roles ctx groups =
      if roles.any elevatedRoleCheck then
        (groups.insert ctx.group).insert ctx.faculty_group
      else groups.insert ctx.group := by
  unfold join_groups
  rw [joinGroupsLoop_eq]

theorem specElevated_iff (roles : List String) :
    roles.any elevatedRoleCheck = true ↔ SpecElevated roles := by
  simp [List.any_eq_true, elevatedRoleCheck, SpecElevated, or_assoc]

end LTIAuthMixin

namespace LTIRoutingView

theorem specNewTabIncapable_iff (req : HttpRequest) :
    custom_landing_page req = true ↔ SpecNewTabIncapable req := by
  simp [custom_landing_page, SpecNewTabIncapable]

theorem appendParams_eq (req : HttpRequest) (keys : List String) (u : String) :
    appendParams req keys u = u ++ extraQuery req keys := by
  induction keys generalizing u with
  | nil => simp [appendParams, extraQuery, String.append_empty]
  | cons k rest ih =>
    simp [appendParams, extraQuery, ih, String.append_assoc]

theorem add_extra_parameters_some (s : LtiSettings) (req : HttpRequest) (url : String)
    (keys : List String) (hk : s.lti_extra_parameters = some keys) :
    add_extra_parameters s req url = some (withQuerySep url ++ extraQuery req keys) := by
  unfold add_extra_parameters
  rw [hk]
  by_cases h : strContains url "?" = true <;> simp [withQuerySep, h, appendParams_eq]

end LTIRoutingView

theorem strContains_append_of_right (s t pat : String)
    (h : strContains t pat = true) : strContains (s ++ t) pat = true := by
  rw [strContains_iff] at h ⊢
  have hd : (s ++ t).toList = s.toList ++ t.toList := by simp [String.toList]
  rw [hd]
  exact h.trans ⟨s.toList, [], by simp⟩

theorem strContains_append_of_left (s t pat : String)
    (h : strContains s pat = true) : strContains (s ++ t) pat = true := by
  rw [strContains_iff] at h ⊢
  have hd : (s ++ t).toList = s.toList ++ t.toList := by simp [String.toList]
  rw [hd]
  exact h.trans ⟨[], t.toList, by simp⟩

/-! Claim theorems. -/

/-- C7: group synchronization is idempotent — for every role list, course
context and starting group set, applying `join_groups` twice in succession
yields the same group-membership set as applying it once. -/
theorem C7_join_groups_idempotent (roles : List String) (ctx : LTICourseContext)
    (groups : List Nat) :
    LTIAuthMixin.join_groups roles ctx (LTIAuthMixin.join_groups roles ctx groups) =
      LTIAuthMixin.join_groups roles ctx groups := by
  by_cases h : roles.any LTIAuthMixin.elevatedRoleCheck = true
  · simp only [LTIAuthMixin.join_groups_eq, if_pos h]
    have h1 : ctx.group ∈ List.insert ctx.faculty_group (List.insert ctx.group groups) :=
      List.mem_insert_iff.mpr (Or.inr (List.mem_insert_self _ _))
    have h2 : ctx.faculty_group ∈ List.insert ctx.faculty_group (List.insert ctx.group groups) :=
      List.mem_insert_self _ _
    rw [List.insert_of_mem h1, List.insert_of_mem h2]
  · simp only [LTIAuthMixin.join_groups_eq, if_neg h]
    rw [List.insert_of_mem (List.mem_insert_self _ _)]

/-- C8: group synchronization is purely additive — `join_groups` never
removes a membership, and membership in any group other than the course's
member and faculty groups is unchanged. -/
theorem C8_join_groups_additive (roles : List String) (ctx : LTICourseContext)
    (groups : List Nat) :
    groups ⊆ LTIAuthMixin.join_groups roles ctx groups ∧
      ∀ g : Nat, g ≠ ctx.group → g ≠ ctx.faculty_group →
        (g ∈ LTIAuthMixin.join_groups roles ctx groups ↔ g ∈ groups) := by
  rw [LTIAuthMixin.join_groups_eq]
  by_cases h : roles.any LTIAuthMixin.elevatedRoleCheck = true
  · rw [if_pos h]
    refine ⟨(List.subset_insert _ _).trans (List.subset_insert _ _), ?_⟩
    intro g hg1 hg2
    simp [List.mem_insert_iff, hg1, hg2]
  · rw [if_neg h]
    refine ⟨List.subset_insert _ _, ?_⟩
    intro g hg1 hg2
    simp [List.mem_insert_iff, hg1]

/-- Witness for C8 at a concrete input: a pre-existing membership in the
unrelated group `2` is preserved by `join_groups` for course context
`(group 0, faculty_group 1)`. -/
theorem C8_join_groups_additive_witness :
    ([2] : List Nat) ⊆ LTIAuthMixin.join_groups ["Learner"] ⟨0, 1⟩ [2] ∧
      ((2 : Nat) ∈ LTIAuthMixin.join_groups ["Learner"] ⟨0, 1⟩ [2] ↔
        (2 : Nat) ∈ ([2] : List Nat)) :=
  ⟨(C8_join_groups_additive ["Learner"] ⟨0, 1⟩ [2]).1,
    (C8_join_groups_additive ["Learner"] ⟨0, 1⟩ [2]).2 2 (by decide) (by decide)⟩

/-- C2 counterexample: when the course context's member and faculty groups
are the same group, the computed group set for `roles = ["Learner"]`
contains the faculty group even though no role string matches an
elevated-role substring — so the claimed "if and only if" fails as stated. -/
theorem C2_counterexample :
    (LTICourseContext.mk 0 0).faculty_group ∈
      LTIAuthMixin.join_groups ["Learner"] (LTICourseContext.mk 0 0) [] ∧
      ¬ SpecElevated ["Learner"] := by
  refine ⟨by decide, ?_⟩
  decide

/-- C2 (amended with the distinctness the counterexample forces): for a
course context whose member and faculty groups are distinct, the group set
computed from an empty starting set always contains the member group, and
contains the faculty group exactly when some role string, case-folded,
contains one of the substrings "staff", "instructor", "administrator". -/
theorem C2_role_mapping (roles : List String) (ctx : LTICourseContext)
    (h : ctx.group ≠ ctx.faculty_group) :
    ctx.group ∈ LTIAuthMixin.join_groups roles ctx [] ∧
      (ctx.faculty_group ∈ LTIAuthMixin.join_groups roles ctx [] ↔ SpecElevated roles) := by
  rw [LTIAuthMixin.join_groups_eq]
  by_cases hany : roles.any LTIAuthMixin.elevatedRoleCheck = true
  · rw [if_pos hany]
    refine ⟨List.mem_insert_iff.mpr (Or.inr (List.mem_insert_self _ _)), ?_⟩
    exact iff_of_true (List.mem_insert_self _ _)
      ((LTIAuthMixin.specElevated_iff roles).mp hany)
  · rw [if_neg hany]
    refine ⟨List.mem_insert_self _ _, ?_⟩
    refine iff_of_false ?_ ?_
    · intro hm
      rcases List.mem_insert_iff.mp hm with h1 | h1
      · exact h h1.symm
      · simp at h1
    · intro hs
      exact hany ((LTIAuthMixin.specElevated_iff roles).mpr hs)

/-- Witness for C2 at a concrete input: `roles = ["Instructor"]` with member
group 1 and faculty group 2 yields both groups, and the elevated iff holds. -/
theorem C2_role_mapping_witness :
    (1 : Nat) ≠ 2 ∧
      ((1 : Nat) ∈ LTIAuthMixin.join_groups ["Instructor"] ⟨1, 2⟩ [] ∧
        ((2 : Nat) ∈ LTIAuthMixin.join_groups ["Instructor"] ⟨1, 2⟩ [] ↔
          SpecElevated ["Instructor"])) :=
  ⟨by decide, C2_role_mapping ["Instructor"] ⟨1, 2⟩ (by decide)⟩

/-- C1: with authentication enabled, `dispatch` adds no group membership and
performs no session login unless `authenticate` succeeds and the course
context resolves; in particular a verified request whose course context does
not resolve leaves the user's group memberships unchanged. -/
theorem C1_no_mutation_without_verification (s : LtiSettings)
    (env : LTIAuthMixin.DispatchEnv)
    (henabled : s.lti_authenticate.getD false = true)
    (hfail : env.authUser = none ∨ env.courseCtx = none) :
    (LTIAuthMixin.dispatch s env).finalGroups = env.authUser ∧
      (LTIAuthMixin.dispatch s env).loggedIn = false := by
  unfold LTIAuthMixin.dispatch
  rcases hfail with h | h
  · simp [henabled, h]
  · cases hau : env.authUser <;> simp [henabled, h, hau]

/-- Witness for C1: authentication enabled, signature verification succeeds,
but the course context does not resolve — the groups are unchanged and no
login happens. -/
theorem C1_no_mutation_without_verification_witness :
    ((⟨some true, none, "em"⟩ : LtiSettings).lti_authenticate.getD false = true) ∧
      ((LTIAuthMixin.dispatch ⟨some true, none, "em"⟩ ⟨some [5], none, ["Instructor"]⟩).finalGroups =
          some [5] ∧
        (LTIAuthMixin.dispatch ⟨some true, none, "em"⟩ ⟨some [5], none, ["Instructor"]⟩).loggedIn =
          false) :=
  ⟨by decide,
    C1_no_mutation_without_verification ⟨some true, none, "em"⟩
      ⟨some [5], none, ["Instructor"]⟩ (by decide) (Or.inr rfl)⟩

/-- C9: with `LTI_AUTHENTICATE` absent or falsy, `dispatch` passes every
request — whatever the oracle results for verification and context
resolution would have been — straight through to the wrapped view, with no
group mutation, no login and no session clearing. -/
theorem C9_passthrough_when_disabled (s : LtiSettings) (env : LTIAuthMixin.DispatchEnv)
    (h : s.lti_authenticate.getD false = false) :
    LTIAuthMixin.dispatch s env =
      ⟨Response.passthrough, env.authUser, false, false⟩ := by
  unfold LTIAuthMixin.dispatch
  simp [h]

/-- Witness for C9: `LTI_AUTHENTICATE` absent; a request that would fail
verification still reaches the wrapped view untouched. -/
theorem C9_passthrough_when_disabled_witness :
    ((⟨none, none, "em"⟩ : LtiSettings).lti_authenticate.getD false = false) ∧
      LTIAuthMixin.dispatch ⟨none, none, "em"⟩ ⟨none, none, []⟩ =
        ⟨Response.passthrough, none, false, false⟩ :=
  ⟨by decide, C9_passthrough_when_disabled ⟨none, none, "em"⟩ ⟨none, none, []⟩ (by decide)⟩

/-- C5: with authentication enabled, a failed verification renders
`lti_auth/fail_auth.html` and an unresolved course context renders
`lti_auth/fail_course_configuration.html`; both paths clear the session,
the two templates are distinct, and a rendered response is never a
redirect. -/
theorem C5_distinct_failure_responses (s : LtiSettings) (env : LTIAuthMixin.DispatchEnv)
    (henabled : s.lti_authenticate.getD false = true) :
    (env.authUser = none →
      (LTIAuthMixin.dispatch s env).response = Response.rendered "lti_auth/fail_auth.html" ∧
        (LTIAuthMixin.dispatch s env).sessionCleared = true) ∧
    (∀ g, env.authUser = some g → env.courseCtx = none →
      (LTIAuthMixin.dispatch s env).response =
          Response.rendered "lti_auth/fail_course_configuration.html" ∧
        (LTIAuthMixin.dispatch s env).sessionCleared = true) ∧
    ("lti_auth/fail_auth.html" : String) ≠ "lti_auth/fail_course_configuration.html" ∧
    (∀ t u, Response.rendered t ≠ Response.redirect u) := by
  refine ⟨?_, ?_, by decide, fun t u => by simp⟩
  · intro h
    unfold LTIAuthMixin.dispatch
    simp [henabled, h]
  · intro g hg hctx
    unfold LTIAuthMixin.dispatch
    simp [henabled, hg, hctx]

/-- Witness for C5: with authentication enabled and verification failing,
the authentication-failure template is rendered and the session cleared. -/
theorem C5_distinct_failure_responses_witness :
    ((⟨some true, none, "em"⟩ : LtiSettings).lti_authenticate.getD false = true) ∧
      ((LTIAuthMixin.dispatch ⟨some true, none, "em"⟩ ⟨none, none, []⟩).response =
          Response.rendered "lti_auth/fail_auth.html" ∧
        (LTIAuthMixin.dispatch ⟨some true, none, "em"⟩ ⟨none, none, []⟩).sessionCleared = true) :=
  ⟨by decide,
    (C5_distinct_failure_responses ⟨some true, none, "em"⟩ ⟨none, none, []⟩ (by decide)).1 rfl⟩

/-- C10: when `LTI_EXTRA_PARAMETERS` is not configured,
`add_extra_parameters` returns `None` rather than the URL it was given, so
`post` builds a redirect whose target is `None` instead of the computed
URL. -/
theorem C10_none_without_extra_parameters (s : LtiSettings) (landing url : String)
    (req : HttpRequest) (h : s.lti_extra_parameters = none) :
    LTIRoutingView.add_extra_parameters s req url = none ∧
      LTIRoutingView.post s landing req = Response.redirect none := by
  have h1 : ∀ u, LTIRoutingView.add_extra_parameters s req u = none := by
    intro u
    unfold LTIRoutingView.add_extra_parameters
    rw [h]
  refine ⟨h1 url, ?_⟩
  simp only [LTIRoutingView.post]
  rw [h1]

/-- Witness for C10: with `LTI_EXTRA_PARAMETERS` absent, a plain launch to
the default entry point produces a redirect with target `None`. -/
theorem C10_none_without_extra_parameters_witness :
    sNoExtra.lti_extra_parameters = none ∧
      (LTIRoutingView.add_extra_parameters sNoExtra reqA "/" = none ∧
        LTIRoutingView.post sNoExtra "/landing/" reqA = Response.redirect none) :=
  ⟨rfl, C10_none_without_extra_parameters sNoExtra "/landing/" "/" reqA rfl⟩

/-- C4 counterexample: with `LTI_EXTRA_PARAMETERS = ['a']` and inbound value
`a=b c`, the outbound URL is `/?a=b c&` — the value is copied verbatim (not
URL-encoded) and a trailing `&` separator remains, unlike the claimed
`/?a=b+c` or `/?a=b%20c`. -/
theorem C4_counterexample :
    LTIRoutingView.add_extra_parameters sExtraA reqSpace "/" = some "/?a=b c&" ∧
      some "/?a=b c&" ≠ some "/?a=b+c" ∧ some "/?a=b c&" ≠ some "/?a=b%20c" :=
  ⟨by decide, by decide, by decide⟩

/-- C4 (amended as the counterexample forces): every configured extra
parameter's value is copied from the inbound request onto the outbound URL
verbatim (not URL-encoded), in configured order, each written as
`key=value&` — so the result carries a trailing `&` — after a `?` or `&`
separator chosen by whether the URL already contains `?`. -/
theorem C4_extra_parameters_verbatim (s : LtiSettings) (req : HttpRequest) (url : String)
    (keys : List String) (hk : s.lti_extra_parameters = some keys) :
    LTIRoutingView.add_extra_parameters s req url =
      some (withQuerySep url ++ extraQuery req keys) :=
  LTIRoutingView.add_extra_parameters_some s req url keys hk

/-- Witness for C4: `LTI_EXTRA_PARAMETERS = ['a']`, inbound `a=1`, base URL
`/` — the outbound URL is `/?` followed by `a=1&`. -/
theorem C4_extra_parameters_verbatim_witness :
    sExtraA.lti_extra_parameters = some ["a"] ∧
      LTIRoutingView.add_extra_parameters sExtraA reqA "/" =
        some ("/" ++ "?" ++ extraQuery reqA ["a"]) :=
  ⟨rfl, C4_extra_parameters_verbatim sExtraA reqA "/" ["a"] rfl⟩

/-- C3 counterexample: an embed launch with
`launch_presentation_return_url=https://x/y` under settings with no
`LTI_EXTRA_PARAMETERS` yields a redirect with target `None`, not the
claimed embed URL with `?return_url=https://x/y`. -/
theorem C3_counterexample :
    LTIRoutingView.post sNoExtra "/landing/" embedReq = Response.redirect none ∧
      LTIRoutingView.post sNoExtra "/landing/" embedReq ≠
        Response.redirect (some "https://h/em?return_url=https://x/y") :=
  ⟨by decide, by decide⟩

/-- C3 (amended as the counterexample forces): when `LTI_EXTRA_PARAMETERS`
is configured, an embed launch redirects to
`scheme://host/<embed_url>?return_url=<return url>` followed by `&` and the
configured extra parameters appended in order as `key=value&` fragments
(values verbatim, trailing `&`); when `LTI_EXTRA_PARAMETERS` is absent the
redirect target is `None` instead. -/
theorem C3_embed_redirect (s : LtiSettings) (landing : String) (req : HttpRequest)
    (keys : List String) (hk : s.lti_extra_parameters = some keys)
    (hembed : req.postParams "ext_content_intended_use" = some "embed")
    (ret : String) (hret : req.postParams "launch_presentation_return_url" = some ret) :
    LTIRoutingView.post s landing req =
      Response.redirect (some
        (req.scheme ++ "://" ++ req.host ++ "/" ++ s.embed_url ++ "?return_url=" ++ ret
          ++ "&" ++ extraQuery req keys)) := by
  have hcond : pyGetD req "ext_content_intended_use" "" = "embed" := by
    simp [pyGetD, hembed]
  have hq : strContains
      (req.scheme ++ "://" ++ req.host ++ "/" ++ s.embed_url ++ "?return_url=" ++ ret)
      "?" = true :=
    strContains_append_of_left _ ret "?"
      (strContains_append_of_right
        (req.scheme ++ "://" ++ req.host ++ "/" ++ s.embed_url) "?return_url=" "?"
        (by decide))
  simp only [LTIRoutingView.post]
  rw [if_pos hcond, hret]
  simp only [pyStr, Option.getD_some]
  rw [LTIRoutingView.add_extra_parameters_some s req _ keys hk]
  simp only [withQuerySep, if_pos hq]

/-- Witness for C3: embed launch `return_url=https://x/y`, scheme `https`,
host `h`, embed URL `em`, extra parameters `['a']`. -/
theorem C3_embed_redirect_witness :
    sExtraA.lti_extra_parameters = some ["a"] ∧
      embedReq.postParams "ext_content_intended_use" = some "embed" ∧
      embedReq.postParams "launch_presentation_return_url" = some "https://x/y" ∧
      LTIRoutingView.post sExtraA "/landing/" embedReq =
        Response.redirect (some
          ("https" ++ "://" ++ "h" ++ "/" ++ "em" ++ "?return_url=" ++ "https://x/y"
            ++ "&" ++ extraQuery embedReq ["a"])) :=
  ⟨rfl, by decide, by decide,
    C3_embed_redirect sExtraA "/landing/" embedReq ["a"] rfl (by decide) "https://x/y" (by decide)⟩

/-- C6 counterexample: a non-embed launch from a Canvas consumer under
settings with no `LTI_EXTRA_PARAMETERS` yields a redirect with target
`None`, not the claimed interstitial landing page URL. -/
theorem C6_counterexample :
    LTIRoutingView.post sNoExtra "/landing/" canvasReq = Response.redirect none ∧
      LTIRoutingView.post sNoExtra "/landing/" canvasReq ≠
        Response.redirect (some "/landing/") :=
  ⟨by decide, by decide⟩

/-- C6 (amended as the counterexample forces): for a non-embed authenticated
launch with `LTI_EXTRA_PARAMETERS` configured, the redirect target is the
interstitial landing page URL exactly when the consumer product family
identifier, case-folded, contains a denylist entry ("canvas"/"blackboard")
as a substring, and the default entry point `/` otherwise — in both cases
suffixed with the separator and the configured extra parameters (and with
`LTI_EXTRA_PARAMETERS` absent the redirect target is `None` instead). -/
theorem C6_landing_routing (s : LtiSettings) (landing : String) (req : HttpRequest)
    (keys : List String) (hk : s.lti_extra_parameters = some keys)
    (hne : pyGetD req "ext_content_intended_use" "" ≠ "embed") :
    LTIRoutingView.post s landing req =
      Response.redirect (some
        (withQuerySep (if SpecNewTabIncapable req then landing else "/")
          ++ extraQuery req keys)) := by
  simp only [LTIRoutingView.post]
  rw [if_neg hne]
  by_cases hc : LTIRoutingView.custom_landing_page req = true
  · rw [if_pos hc,
      LTIRoutingView.add_extra_parameters_some s req landing keys hk,
      if_pos ((LTIRoutingView.specNewTabIncapable_iff req).mp hc)]
  · rw [if_neg hc,
      LTIRoutingView.add_extra_parameters_some s req "/" keys hk,
      if_neg (fun hs => hc ((LTIRoutingView.specNewTabIncapable_iff req).mpr hs))]

/-- Witness for C6: a Canvas consumer with `LTI_EXTRA_PARAMETERS = ['a']`
is routed to the landing page with the extra-parameter suffix. -/
theorem C6_landing_routing_witness :
    sExtraA.lti_extra_parameters = some ["a"] ∧
      pyGetD canvasReq "ext_content_intended_use" "" ≠ "embed" ∧
      LTIRoutingView.post sExtraA "/landing/" canvasReq =
        Response.redirect (some ("/landing/" ++ "?" ++ extraQuery canvasReq ["a"])) :=
  ⟨rfl, by decide,
    C6_landing_routing sExtraA "/landing/" canvasReq ["a"] rfl (by decide)⟩
